import Mathlib

/-
  Shallow embedding of the rock-paper-automata engine (src/index.js).

  The JS program keeps three per-cell stores during a generation pass:
    * originalBuffer — a copy of the canvas pixels taken at pass start,
      used for all color reads (Canvas.doWork);
    * workingBuffer  — a second copy of the canvas pixels, used for all
      color writes; it is written back to the canvas after the pass;
    * levelByAutomatonIndex — a single array of per-cell levels, read and
      written in place by both rule variants (Canvas.setLevelAtCoord /
      Canvas.getLevelAtCoord); it is NOT double-buffered.

  Cells are addressed by integer (x, y). Colors are RGB byte triples.
  Levels are JS numbers; they may go negative (wavesAlgorithm subtracts
  one without clamping), so they are modelled as Int.
-/

namespace RPA

/-- A pixel color, as stored in the canvas buffers (r, g, b channels). -/
structure RGB where
  r : Nat
  g : Nat
  b : Nat
deriving DecidableEq, Repr

/-- A cell position (x, y); neighbor offsets make it convenient to use Int. -/
abbrev Pos := Int × Int

/-- Point update of a function-represented buffer (Canvas.setRGB /
Canvas.setLevelAtCoord write a single cell's entry). -/
def writeAt {α : Type} (f : Pos → α) (p : Pos) (v : α) : Pos → α :=
  fun q => if q = p then v else f q

/-- The mutable state visible to one generation pass: the color snapshot
`orig` (originalBuffer), the color write buffer `work` (workingBuffer), and
the shared level array `level` (levelByAutomatonIndex). -/
structure SimState where
  orig : Pos → RGB
  work : Pos → RGB
  level : Pos → Int

/-- The rule configuration read by the algorithms: `initialLevel`,
`edibleLevel` and the `youngBanquetMode` flag of RockPaperAutomata. -/
structure Config where
  initialLevel : Int
  edibleLevel : Int
  youngBanquetMode : Bool

/-- The type of a rule variant: given config, self cell, neighbor cell and
the pass state, produce the next pass state. -/
abbrev AlgFun := Config → Pos → Pos → SimState → SimState

/-- Transcription of RockPaperAutomata.randomAlgorithm (the Classic
variant).  Reads colors from `orig`, writes colors to `work`, reads and
writes levels in the shared `level` array. -/
def randomAlgorithm : AlgFun := fun cfg p np s =>
  let neighborLevel := s.level np
  if neighborLevel = 0 then s  -- neighbor cannot eat me
  else
    let c := s.orig p
    let nc := s.orig np
    if c.r + c.g + c.b = 0 then  -- blank pixel
      { s with work := writeAt s.work p nc,
               level := writeAt s.level p neighborLevel }
    else if 0 < c.r ∧ 0 < nc.g then  -- green eats red
      { s with work := writeAt s.work p ⟨0, nc.g, 0⟩,
               level := writeAt (writeAt s.level np (neighborLevel + 1)) p cfg.initialLevel }
    else if 0 < c.g ∧ 0 < nc.b then  -- blue eats green
      { s with work := writeAt s.work p ⟨0, 0, nc.b⟩,
               level := writeAt (writeAt s.level np (neighborLevel + 1)) p cfg.initialLevel }
    else if 0 < c.b ∧ 0 < nc.r then  -- red eats blue
      { s with work := writeAt s.work p ⟨nc.r, 0, 0⟩,
               level := writeAt (writeAt s.level np (neighborLevel + 1)) p cfg.initialLevel }
    else s

/-- Transcription of RockPaperAutomata.wavesAlgorithm (the Waves
variant). -/
def wavesAlgorithm : AlgFun := fun cfg p np s =>
  let neighborLevel := s.level np
  if neighborLevel = 0 then s  -- neighbor cannot eat me
  else
    let myLevel := s.level p
    if cfg.edibleLevel < myLevel then
      -- too young to be eaten
      { s with level := writeAt s.level p (myLevel - 1) }
    else
      let c := s.orig p
      let nc := s.orig np
      if c.r + c.g + c.b = 0 then  -- blank pixel
        { s with work := writeAt s.work p nc,
                 level := writeAt s.level p neighborLevel }
      else if 0 < c.r ∧ 0 < nc.g ∧ (cfg.youngBanquetMode = false ∨ myLevel < neighborLevel) then
        -- green eats red
        { s with work := writeAt s.work p ⟨0, nc.g, 0⟩,
                 level := writeAt (writeAt s.level np cfg.initialLevel) p cfg.initialLevel }
      else if 0 < c.g ∧ 0 < nc.b ∧ (cfg.youngBanquetMode = false ∨ myLevel < neighborLevel) then
        -- blue eats green
        { s with work := writeAt s.work p ⟨0, 0, nc.b⟩,
                 level := writeAt (writeAt s.level np cfg.initialLevel) p cfg.initialLevel }
      else if 0 < c.b ∧ 0 < nc.r ∧ (cfg.youngBanquetMode = false ∨ myLevel < neighborLevel) then
        -- red eats blue
        { s with work := writeAt s.work p ⟨nc.r, 0, 0⟩,
                 level := writeAt (writeAt s.level np cfg.initialLevel) p cfg.initialLevel }
      else
        -- aging
        { s with level := writeAt s.level p (myLevel - 1) }

/-- The four species of the cell model; red/green/blue are the three
predation-cycle colors (spec species A/B/C), empty is a blank pixel. -/
inductive Species where
  | empty
  | red
  | green
  | blue
deriving DecidableEq, Repr

/-- The pure color that the seeding collaborator stores for each species
(saturated single channel; blank for empty). -/
def Species.rgb : Species → RGB
  | .empty => ⟨0, 0, 0⟩
  | .red => ⟨255, 0, 0⟩
  | .green => ⟨0, 255, 0⟩
  | .blue => ⟨0, 0, 255⟩

/-- The predator of each species in the cyclic relation of the code:
green eats red, blue eats green, red eats blue. -/
def eater : Species → Species
  | .red => .green
  | .green => .blue
  | .blue => .red
  | .empty => .empty

/-- An all-black, all-level-zero state, as produced by Canvas.reset. -/
def stateAllZero : SimState :=
  ⟨fun _ => ⟨0, 0, 0⟩, fun _ => ⟨0, 0, 0⟩, fun _ => 0⟩

/-- Concrete colors used by the closed witness instances: a red cell at
(1,1), a green cell at (2,1), a blue cell at (3,1), blank elsewhere. -/
def witColor : Pos → RGB := fun q =>
  if q = (1, 1) then ⟨255, 0, 0⟩
  else if q = (2, 1) then ⟨0, 255, 0⟩
  else if q = (3, 1) then ⟨0, 0, 255⟩
  else ⟨0, 0, 0⟩

/-- Concrete levels used by the closed witness instances. -/
def witLevel : Pos → Int := fun q =>
  if q = (1, 1) then 30 else if q = (2, 1) then 40 else if q = (3, 1) then 5 else 0

/-- Concrete pass state used by the closed witness instances. -/
def witState : SimState := ⟨witColor, witColor, witLevel⟩

/-- A state for the aging boundary: a red cell at (1,1) already at level 0
and a blue neighbor at (3,1) with level 7. -/
def agingLevel : Pos → Int := fun q =>
  if q = (1, 1) then 0 else if q = (3, 1) then 7 else 0

/-- Pass state exercising the Waves aging branch at level 0. -/
def agingState : SimState := ⟨witColor, witColor, agingLevel⟩

/-- The two selector cursors held as fields of RockPaperAutomata:
fixedNeighborPicksIndex and randomNeighborPicksIndex.  They are created
once in the constructor and never reset. -/
structure SelectorState where
  fixedNeighborPicksIndex : Nat
  randomNeighborPicksIndex : Nat
deriving DecidableEq, Repr

/-- The fixed clockwise ring of the 8 non-zero offsets
(RockPaperAutomata.constructor). -/
def fixedNeighborPicks : List Pos :=
  [(1, 1), (1, 0), (1, -1), (0, -1), (-1, -1), (-1, 0), (-1, 1), (0, 1)]

/-- fixedNeighborMask = fixedNeighborPicks.length - 1. -/
def fixedNeighborMask : Nat := fixedNeighborPicks.length - 1

/-- One FixedCycle step: return the entry at the cursor, then advance the
cursor by one under the power-of-two index mask. -/
def fixedNext (sel : SelectorState) : Pos × SelectorState :=
  (fixedNeighborPicks.getD sel.fixedNeighborPicksIndex (0, 0),
   { sel with
      fixedNeighborPicksIndex := (sel.fixedNeighborPicksIndex + 1) &&& fixedNeighborMask })

/-- One PrecomputedRandomCycle step over a precomputed ring
randomNeighborPicks, with the same wrap-around cursor discipline. -/
def preRandomNext (randomNeighborPicks : List Pos) (sel : SelectorState) :
    Pos × SelectorState :=
  (randomNeighborPicks.getD sel.randomNeighborPicksIndex (0, 0),
   { sel with
      randomNeighborPicksIndex :=
        (sel.randomNeighborPicksIndex + 1) &&& (randomNeighborPicks.length - 1) })

/-- A fresh selector: both cursors start at 0 (constructor). -/
def freshSelector : SelectorState := ⟨0, 0⟩

/-- The selector state after n FixedCycle calls from a fresh selector. -/
def fixedSelAfter : Nat → SelectorState
  | 0 => freshSelector
  | n + 1 => (fixedNext (fixedSelAfter n)).2

/-- The offset returned by the (n+1)-st FixedCycle call from a fresh
selector. -/
def fixedStream (n : Nat) : Pos := (fixedNext (fixedSelAfter n)).1

/-- The generation pass with the FixedCycle selector threaded through,
exactly as in RockPaperAutomata.update (mode NEIGHBOR_PICKING_MODE_FIXED):
one fixedNext call per processed cell, cursor carried across the pass. -/
def runPassFixedAux (alg : AlgFun) (cfg : Config) :
    List Pos → SimState × SelectorState → SimState × SelectorState
  | [], ss => ss
  | p :: ps, ss =>
      let d := (fixedNext ss.2).1
      runPassFixedAux alg cfg ps
        (alg cfg p (p.1 + d.1, p.2 + d.2) ss.1, (fixedNext ss.2).2)

/-- The generation pass over a list of cells, fed by an arbitrary stream
of neighbor offsets (one per processed cell, in processing order).  This
covers all three selection modes, which differ only in the offsets they
produce. -/
def runPassAux (alg : AlgFun) (cfg : Config) :
    List Pos → (Nat → Pos) → SimState → SimState
  | [], _, s => s
  | p :: ps, picks, s =>
      runPassAux alg cfg ps (fun i => picks (i + 1))
        (alg cfg p (p.1 + (picks 0).1, p.2 + (picks 0).2) s)

/-- Rule-variant dispatch in RockPaperAutomata.update: the ternary
`algorithm === "waves" ? wavesAlgorithm : randomAlgorithm` maps every
string other than "waves" to the Classic algorithm. -/
def selectAlgorithm (algorithm : String) : AlgFun :=
  if algorithm = "waves" then wavesAlgorithm else randomAlgorithm

/-- Neighbor picking mode constants of RockPaperAutomata. -/
def NEIGHBOR_PICKING_MODE_RANDOM : Nat := 0

/-- Fixed picking mode constant. -/
def NEIGHBOR_PICKING_MODE_FIXED : Nat := 1

/-- Precomputed-random picking mode constant. -/
def NEIGHBOR_PICKING_MODE_PRE_RANDOM : Nat := 2

/-- The neighbor-offset dispatch of RockPaperAutomata.update: modes 0, 1
and 2 produce an offset (the fresh Math.random draw of mode 0 is passed as
a parameter); any other mode value throws "Unknown neighbor picking mode!"
in the middle of a pass. -/
def pickOffset (mode : Nat) (randomDraw : Pos) (randomNeighborPicks : List Pos)
    (sel : SelectorState) : Except String (Pos × SelectorState) :=
  if mode = NEIGHBOR_PICKING_MODE_RANDOM then .ok (randomDraw, sel)
  else if mode = NEIGHBOR_PICKING_MODE_FIXED then .ok (fixedNext sel)
  else if mode = NEIGHBOR_PICKING_MODE_PRE_RANDOM then
    .ok (preRandomNext randomNeighborPicks sel)
  else .error "Unknown neighbor picking mode!"

/-- The neighbor-selection change listener of the constructor: the switch
assigns a mode for the three known strings and leaves the mode unchanged
for any other value (no default case, no error). -/
def setPickingMode (current : Nat) (value : String) : Nat :=
  if value = "random" then NEIGHBOR_PICKING_MODE_RANDOM
  else if value = "fixed" then NEIGHBOR_PICKING_MODE_FIXED
  else if value = "pre-random" then NEIGHBOR_PICKING_MODE_PRE_RANDOM
  else current

/-- The interior cells iterated by one pass of RockPaperAutomata.update:
row-major, y over range(1, height-1) outer, x over range(1, width-1)
inner; border cells are never the "self" of an update. -/
def interiorCells (width height : Nat) : List Pos :=
  (List.range (height - 2)).flatMap fun j =>
    (List.range (width - 2)).map fun i => (((i + 1 : Nat) : Int), ((j + 1 : Nat) : Int))

/-- One full generation pass (the doWork callback body) with an abstract
offset stream. -/
def runPass (alg : AlgFun) (cfg : Config) (picks : Nat → Pos) (width height : Nat)
    (s : SimState) : SimState :=
  runPassAux alg cfg (interiorCells width height) picks s

/-- One tick: Canvas.doWork copies the canvas into originalBuffer and
workingBuffer, runs the pass, then putImageData makes the working buffer
the canvas — which the next tick snapshots into both buffers again.  The
level array carries over unchanged. -/
def tick (alg : AlgFun) (cfg : Config) (picks : Nat → Pos) (width height : Nat)
    (s : SimState) : SimState :=
  let t := runPass alg cfg picks width height s
  ⟨t.work, t.work, t.level⟩

/-- A sequence of ticks, one offset stream per generation. -/
def runTicks (alg : AlgFun) (cfg : Config) (pickss : List (Nat → Pos))
    (width height : Nat) (s : SimState) : SimState :=
  pickss.foldl (fun st picks => tick alg cfg picks width height st) s

/-- The Classic rule as claim C1 describes it: level READS frozen to a
pre-pass snapshot lv0 (writes still accumulate in the pass state).  The
actual randomAlgorithm instead reads the live shared level array. -/
def randomAlgorithmLS (lv0 : Pos → Int) : AlgFun := fun cfg p np s =>
  let neighborLevel := lv0 np
  if neighborLevel = 0 then s
  else
    let c := s.orig p
    let nc := s.orig np
    if c.r + c.g + c.b = 0 then
      { s with work := writeAt s.work p nc,
               level := writeAt s.level p neighborLevel }
    else if 0 < c.r ∧ 0 < nc.g then
      { s with work := writeAt s.work p ⟨0, nc.g, 0⟩,
               level := writeAt (writeAt s.level np (neighborLevel + 1)) p cfg.initialLevel }
    else if 0 < c.g ∧ 0 < nc.b then
      { s with work := writeAt s.work p ⟨0, 0, nc.b⟩,
               level := writeAt (writeAt s.level np (neighborLevel + 1)) p cfg.initialLevel }
    else if 0 < c.b ∧ 0 < nc.r then
      { s with work := writeAt s.work p ⟨nc.r, 0, 0⟩,
               level := writeAt (writeAt s.level np (neighborLevel + 1)) p cfg.initialLevel }
    else s

/-- The Waves rule with level reads frozen to a pre-pass snapshot lv0, as
claim C1 describes it. -/
def wavesAlgorithmLS (lv0 : Pos → Int) : AlgFun := fun cfg p np s =>
  let neighborLevel := lv0 np
  if neighborLevel = 0 then s
  else
    let myLevel := lv0 p
    if cfg.edibleLevel < myLevel then
      { s with level := writeAt s.level p (myLevel - 1) }
    else
      let c := s.orig p
      let nc := s.orig np
      if c.r + c.g + c.b = 0 then
        { s with work := writeAt s.work p nc,
                 level := writeAt s.level p neighborLevel }
      else if 0 < c.r ∧ 0 < nc.g ∧ (cfg.youngBanquetMode = false ∨ myLevel < neighborLevel) then
        { s with work := writeAt s.work p ⟨0, nc.g, 0⟩,
                 level := writeAt (writeAt s.level np cfg.initialLevel) p cfg.initialLevel }
      else if 0 < c.g ∧ 0 < nc.b ∧ (cfg.youngBanquetMode = false ∨ myLevel < neighborLevel) then
        { s with work := writeAt s.work p ⟨0, 0, nc.b⟩,
                 level := writeAt (writeAt s.level np cfg.initialLevel) p cfg.initialLevel }
      else if 0 < c.b ∧ 0 < nc.r ∧ (cfg.youngBanquetMode = false ∨ myLevel < neighborLevel) then
        { s with work := writeAt s.work p ⟨nc.r, 0, 0⟩,
                 level := writeAt (writeAt s.level np cfg.initialLevel) p cfg.initialLevel }
      else
        { s with level := writeAt s.level p (myLevel - 1) }

/-- A pass under the level-snapshot semantics claimed by C1: every call
reads levels from the state as it was when the pass began. -/
def runPassSnap (algLS : (Pos → Int) → AlgFun) (cfg : Config) (picks : Nat → Pos)
    (width height : Nat) (s : SimState) : SimState :=
  runPassAux (algLS s.level) cfg (interiorCells width height) picks s

/-- The Classic rule with color reads frozen to an explicit snapshot c0;
used to state that the real algorithm's color reads only ever see the
pre-pass snapshot. -/
def randomAlgorithmCS (c0 : Pos → RGB) : AlgFun := fun cfg p np s =>
  let neighborLevel := s.level np
  if neighborLevel = 0 then s
  else
    let c := c0 p
    let nc := c0 np
    if c.r + c.g + c.b = 0 then
      { s with work := writeAt s.work p nc,
               level := writeAt s.level p neighborLevel }
    else if 0 < c.r ∧ 0 < nc.g then
      { s with work := writeAt s.work p ⟨0, nc.g, 0⟩,
               level := writeAt (writeAt s.level np (neighborLevel + 1)) p cfg.initialLevel }
    else if 0 < c.g ∧ 0 < nc.b then
      { s with work := writeAt s.work p ⟨0, 0, nc.b⟩,
               level := writeAt (writeAt s.level np (neighborLevel + 1)) p cfg.initialLevel }
    else if 0 < c.b ∧ 0 < nc.r then
      { s with work := writeAt s.work p ⟨nc.r, 0, 0⟩,
               level := writeAt (writeAt s.level np (neighborLevel + 1)) p cfg.initialLevel }
    else s

/-- The Waves rule with color reads frozen to an explicit snapshot c0. -/
def wavesAlgorithmCS (c0 : Pos → RGB) : AlgFun := fun cfg p np s =>
  let neighborLevel := s.level np
  if neighborLevel = 0 then s
  else
    let myLevel := s.level p
    if cfg.edibleLevel < myLevel then
      { s with level := writeAt s.level p (myLevel - 1) }
    else
      let c := c0 p
      let nc := c0 np
      if c.r + c.g + c.b = 0 then
        { s with work := writeAt s.work p nc,
                 level := writeAt s.level p neighborLevel }
      else if 0 < c.r ∧ 0 < nc.g ∧ (cfg.youngBanquetMode = false ∨ myLevel < neighborLevel) then
        { s with work := writeAt s.work p ⟨0, nc.g, 0⟩,
                 level := writeAt (writeAt s.level np cfg.initialLevel) p cfg.initialLevel }
      else if 0 < c.g ∧ 0 < nc.b ∧ (cfg.youngBanquetMode = false ∨ myLevel < neighborLevel) then
        { s with work := writeAt s.work p ⟨0, 0, nc.b⟩,
                 level := writeAt (writeAt s.level np cfg.initialLevel) p cfg.initialLevel }
      else if 0 < c.b ∧ 0 < nc.r ∧ (cfg.youngBanquetMode = false ∨ myLevel < neighborLevel) then
        { s with work := writeAt s.work p ⟨nc.r, 0, 0⟩,
                 level := writeAt (writeAt s.level np cfg.initialLevel) p cfg.initialLevel }
      else
        { s with level := writeAt s.level p (myLevel - 1) }

/-- Counterexample grid colors (5 wide, 4 high): one red cell at (2,2),
blank everywhere else. -/
def cexColor : Pos → RGB := fun q => if q = (2, 2) then ⟨255, 0, 0⟩ else ⟨0, 0, 0⟩

/-- Counterexample grid levels: 30 at the red cell, 0 elsewhere, so the
Empty-iff-level-0 invariant holds before the pass. -/
def cexLevel : Pos → Int := fun q => if q = (2, 2) then 30 else 0

/-- Counterexample pass state. -/
def cexState : SimState := ⟨cexColor, cexColor, cexLevel⟩

/-- Offsets of the FixedCycle selector from a fresh cursor, as a stream. -/
def cexPicks : Nat → Pos := fun i => fixedNeighborPicks.getD (i % 8) (0, 0)

/-- Default configuration: initialLevel 30, edibleLevel 1, young-banquet
mode on. -/
def cexCfg : Config := ⟨30, 1, true⟩

/-- Border predicate: the cells skipped as "self" by every pass. -/
def isBorder (width height : Nat) (q : Pos) : Prop :=
  q.1 = 0 ∨ q.1 = (width : Int) - 1 ∨ q.2 = 0 ∨ q.2 = (height : Int) - 1

/-- Helper: a species and its eater have distinct pure colors, so a cell
and its neighbor holding them are distinct positions. -/
theorem ne_of_eater_colors {p np : Pos} {s : SimState} {sp : Species}
    (hsp : sp ≠ Species.empty)
    (hself : s.orig p = sp.rgb) (hneigh : s.orig np = (eater sp).rgb) :
    np ≠ p := by
  intro h
  have hc : sp.rgb = (eater sp).rgb := by rw [← hself, ← hneigh, h]
  cases sp <;> simp_all [Species.rgb, eater]

/-- Claim C6: in both variants, a neighbor whose level is 0 causes no
change at all: the engine call returns the state unchanged, so the self
cell keeps its species and level and the neighbor does not prey. -/
theorem C6_zero_level_neighbor_noop (cfg : Config) (p np : Pos) (s : SimState)
    (h : s.level np = 0) :
    randomAlgorithm cfg p np s = s ∧ wavesAlgorithm cfg p np s = s := by
  constructor <;> simp [randomAlgorithm, wavesAlgorithm, h]

/-- Witness for C6 at a concrete state: all levels are 0, so any call of
either variant is the identity. -/
theorem C6_zero_level_neighbor_noop_witness :
    stateAllZero.level (2, 1) = 0 ∧
    (randomAlgorithm ⟨30, 1, true⟩ (1, 1) (2, 1) stateAllZero = stateAllZero ∧
     wavesAlgorithm ⟨30, 1, true⟩ (1, 1) (2, 1) stateAllZero = stateAllZero) :=
  ⟨rfl, C6_zero_level_neighbor_noop ⟨30, 1, true⟩ (1, 1) (2, 1) stateAllZero rfl⟩

/-- Claim C4: Classic variant, self non-Empty, neighbor level nonzero,
neighbor species beats self species: self's color becomes the neighbor's
species, self's level becomes exactly initialLevel, and the neighbor's
stored level becomes exactly oldNeighborLevel + 1, never a decrease. -/
theorem C4_classic_predation (cfg : Config) (p np : Pos) (s : SimState) (sp : Species)
    (hsp : sp ≠ Species.empty)
    (hself : s.orig p = sp.rgb)
    (hneigh : s.orig np = (eater sp).rgb)
    (hnl : s.level np ≠ 0) :
    (randomAlgorithm cfg p np s).work p = (eater sp).rgb ∧
    (randomAlgorithm cfg p np s).level p = cfg.initialLevel ∧
    (randomAlgorithm cfg p np s).level np = s.level np + 1 ∧
    s.level np < (randomAlgorithm cfg p np s).level np := by
  have hpnp : np ≠ p := ne_of_eater_colors hsp hself hneigh
  cases sp with
  | empty => exact absurd rfl hsp
  | red =>
      refine ⟨?_, ?_, ?_, ?_⟩ <;>
        simp [randomAlgorithm, hself, hneigh, hnl, writeAt, hpnp, Species.rgb, eater]
  | green =>
      refine ⟨?_, ?_, ?_, ?_⟩ <;>
        simp [randomAlgorithm, hself, hneigh, hnl, writeAt, hpnp, Species.rgb, eater]
  | blue =>
      refine ⟨?_, ?_, ?_, ?_⟩ <;>
        simp [randomAlgorithm, hself, hneigh, hnl, writeAt, hpnp, Species.rgb, eater]

/-- Witness for C4 at a concrete state: red cell (1,1) level 30, green
neighbor (2,1) level 40, Classic call turns (1,1) green at level 30 and
raises the neighbor's level to 41. -/
theorem C4_classic_predation_witness :
    witState.orig (1, 1) = Species.red.rgb ∧
    witState.orig (2, 1) = (eater Species.red).rgb ∧
    witState.level (2, 1) ≠ 0 ∧
    ((randomAlgorithm ⟨30, 1, true⟩ (1, 1) (2, 1) witState).work (1, 1) =
        (eater Species.red).rgb ∧
      (randomAlgorithm ⟨30, 1, true⟩ (1, 1) (2, 1) witState).level (1, 1) = 30 ∧
      (randomAlgorithm ⟨30, 1, true⟩ (1, 1) (2, 1) witState).level (2, 1) =
        witState.level (2, 1) + 1 ∧
      witState.level (2, 1) < (randomAlgorithm ⟨30, 1, true⟩ (1, 1) (2, 1) witState).level (2, 1)) :=
  ⟨by decide, by decide, by decide,
    C4_classic_predation ⟨30, 1, true⟩ (1, 1) (2, 1) witState Species.red
      (by decide) (by decide) (by decide) (by decide)⟩

/-- Claim C5: Waves variant, self non-Empty with level at most edibleLevel,
neighbor level nonzero, neighbor species beats self species.  If the
young-banquet flag is off or the neighbor's level is strictly greater than
self's, self takes the neighbor's species and both levels are set to
exactly initialLevel; otherwise (flag on, neighbor not strictly younger)
predation is blocked: the species is untouched and no level is reset. -/
theorem C5_waves_predation (cfg : Config) (p np : Pos) (s : SimState) (sp : Species)
    (hsp : sp ≠ Species.empty)
    (hself : s.orig p = sp.rgb)
    (hneigh : s.orig np = (eater sp).rgb)
    (hnl : s.level np ≠ 0)
    (hml : s.level p ≤ cfg.edibleLevel) :
    ((cfg.youngBanquetMode = false ∨ s.level p < s.level np) →
      (wavesAlgorithm cfg p np s).work p = (eater sp).rgb ∧
      (wavesAlgorithm cfg p np s).level p = cfg.initialLevel ∧
      (wavesAlgorithm cfg p np s).level np = cfg.initialLevel) ∧
    (cfg.youngBanquetMode = true → ¬ s.level p < s.level np →
      (wavesAlgorithm cfg p np s).work = s.work ∧
      (wavesAlgorithm cfg p np s).level p = s.level p - 1 ∧
      (wavesAlgorithm cfg p np s).level np = s.level np) := by
  have hpnp : np ≠ p := ne_of_eater_colors hsp hself hneigh
  have hml' : ¬ cfg.edibleLevel < s.level p := not_lt.mpr hml
  constructor
  · intro hcond
    cases sp with
    | empty => exact absurd rfl hsp
    | red =>
        rcases hcond with hc | hc <;>
          (refine ⟨?_, ?_, ?_⟩ <;>
            simp [wavesAlgorithm, hself, hneigh, hnl, hml', hc, writeAt, hpnp,
              Species.rgb, eater])
    | green =>
        rcases hcond with hc | hc <;>
          (refine ⟨?_, ?_, ?_⟩ <;>
            simp [wavesAlgorithm, hself, hneigh, hnl, hml', hc, writeAt, hpnp,
              Species.rgb, eater])
    | blue =>
        rcases hcond with hc | hc <;>
          (refine ⟨?_, ?_, ?_⟩ <;>
            simp [wavesAlgorithm, hself, hneigh, hnl, hml', hc, writeAt, hpnp,
              Species.rgb, eater])
  · intro hybm hnlt
    cases sp with
    | empty => exact absurd rfl hsp
    | red =>
        refine ⟨?_, ?_, ?_⟩ <;>
          simp [wavesAlgorithm, hself, hneigh, hnl, hml', hybm, hnlt, writeAt, hpnp,
            Species.rgb, eater]
    | green =>
        refine ⟨?_, ?_, ?_⟩ <;>
          simp [wavesAlgorithm, hself, hneigh, hnl, hml', hybm, hnlt, writeAt, hpnp,
            Species.rgb, eater]
    | blue =>
        refine ⟨?_, ?_, ?_⟩ <;>
          simp [wavesAlgorithm, hself, hneigh, hnl, hml', hybm, hnlt, writeAt, hpnp,
            Species.rgb, eater]

/-- Witness for C5: with edibleLevel 50, the red cell (1,1) at level 30 is
eaten by the younger green neighbor (2,1) at level 40 (both levels become
30 = initialLevel); the green cell (2,1) at level 40 is NOT eaten by the
older blue neighbor (3,1) at level 5 under young-banquet mode. -/
theorem C5_waves_predation_witness :
    (witState.level (2, 1) ≠ 0 ∧ witState.level (1, 1) ≤ (50 : Int) ∧
      witState.level (1, 1) < witState.level (2, 1) ∧
      (wavesAlgorithm ⟨30, 50, true⟩ (1, 1) (2, 1) witState).work (1, 1) =
        (eater Species.red).rgb ∧
      (wavesAlgorithm ⟨30, 50, true⟩ (1, 1) (2, 1) witState).level (1, 1) = 30 ∧
      (wavesAlgorithm ⟨30, 50, true⟩ (1, 1) (2, 1) witState).level (2, 1) = 30) ∧
    (¬ witState.level (2, 1) < witState.level (3, 1) ∧
      (wavesAlgorithm ⟨30, 50, true⟩ (2, 1) (3, 1) witState).work = witState.work ∧
      (wavesAlgorithm ⟨30, 50, true⟩ (2, 1) (3, 1) witState).level (2, 1) =
        witState.level (2, 1) - 1 ∧
      (wavesAlgorithm ⟨30, 50, true⟩ (2, 1) (3, 1) witState).level (3, 1) =
        witState.level (3, 1)) := by
  constructor
  · refine ⟨by decide, by decide, by decide, ?_⟩
    exact (C5_waves_predation ⟨30, 50, true⟩ (1, 1) (2, 1) witState Species.red
      (by decide) (by decide) (by decide) (by decide) (by decide)).1 (Or.inr (by decide))
  · refine ⟨by decide, ?_⟩
    exact (C5_waves_predation ⟨30, 50, true⟩ (2, 1) (3, 1) witState Species.green
      (by decide) (by decide) (by decide) (by decide) (by decide)).2 rfl (by decide)

/-- Counterexample to claim C3: in the Waves plain-aging branch the level
is NOT clamped at 0.  The non-Empty red cell (1,1) is at level 0, its blue
neighbor (3,1) has nonzero level 7 and does not beat red, so the aging
branch runs — and the cell's level becomes -1, strictly below 0. -/
theorem C3_no_clamp_counterexample :
    agingState.orig (1, 1) = Species.red.rgb ∧
    agingState.level (1, 1) = 0 ∧
    agingState.level (3, 1) ≠ 0 ∧
    (wavesAlgorithm ⟨30, 1, true⟩ (1, 1) (3, 1) agingState).level (1, 1) = -1 ∧
    ¬ 0 ≤ (wavesAlgorithm ⟨30, 1, true⟩ (1, 1) (3, 1) agingState).level (1, 1) := by
  refine ⟨by decide, by decide, by decide, by decide, by decide⟩

/-- Claim C3 as amended: the Waves plain-aging branch (neighbor level
nonzero, self non-Empty, self level at most edibleLevel, predation not
fired) decrements the self cell's level by exactly 1 with NO lower bound
(level 0 becomes -1); the species buffers are untouched and no other
cell's level changes. -/
theorem C3_waves_plain_aging (cfg : Config) (p np : Pos) (s : SimState)
    (sp nsp : Species)
    (hsp : sp ≠ Species.empty)
    (hself : s.orig p = sp.rgb)
    (hneigh : s.orig np = nsp.rgb)
    (hnl : s.level np ≠ 0)
    (hml : s.level p ≤ cfg.edibleLevel)
    (hnopred : ¬ (nsp = eater sp ∧
      (cfg.youngBanquetMode = false ∨ s.level p < s.level np))) :
    (wavesAlgorithm cfg p np s).level p = s.level p - 1 ∧
    (wavesAlgorithm cfg p np s).work = s.work ∧
    (wavesAlgorithm cfg p np s).orig = s.orig ∧
    ∀ q, q ≠ p → (wavesAlgorithm cfg p np s).level q = s.level q := by
  have hml' : ¬ cfg.edibleLevel < s.level p := not_lt.mpr hml
  have key : wavesAlgorithm cfg p np s =
      { s with level := writeAt s.level p (s.level p - 1) } := by
    cases sp with
    | empty => exact absurd rfl hsp
    | red =>
        cases nsp <;>
          simp_all [wavesAlgorithm, Species.rgb, eater]
    | green =>
        cases nsp <;>
          simp_all [wavesAlgorithm, Species.rgb, eater]
    | blue =>
        cases nsp <;>
          simp_all [wavesAlgorithm, Species.rgb, eater]
  rw [key]
  refine ⟨by simp [writeAt], rfl, rfl, ?_⟩
  intro q hq
  simp [writeAt, hq]

/-- Witness for the amended C3: the red cell (1,1) at level 0 with the
non-predatory blue neighbor (3,1) at level 7 ages to level -1 while every
other component of the state is untouched. -/
theorem C3_waves_plain_aging_witness :
    (agingState.level (3, 1) ≠ 0 ∧ agingState.level (1, 1) ≤ (1 : Int) ∧
      ¬ (Species.blue = eater Species.red ∧
        ((true : Bool) = false ∨ agingState.level (1, 1) < agingState.level (3, 1)))) ∧
    (wavesAlgorithm ⟨30, 1, true⟩ (1, 1) (3, 1) agingState).level (1, 1) =
      agingState.level (1, 1) - 1 ∧
    (wavesAlgorithm ⟨30, 1, true⟩ (1, 1) (3, 1) agingState).work = agingState.work := by
  refine ⟨⟨by decide, by decide, by decide⟩, ?_, ?_⟩
  · exact (C3_waves_plain_aging ⟨30, 1, true⟩ (1, 1) (3, 1) agingState Species.red Species.blue
      (by decide) (by decide) (by decide) (by decide) (by decide) (by decide)).1
  · exact (C3_waves_plain_aging ⟨30, 1, true⟩ (1, 1) (3, 1) agingState Species.red Species.blue
      (by decide) (by decide) (by decide) (by decide) (by decide) (by decide)).2.1

/-- Counterexample to claim C7: the "too young" decrement is NOT applied
regardless of the neighbor's state.  With the neighbor (0,0) at level 0,
the level-0 guard returns first: the red cell (1,1), whose level 30
exceeds edibleLevel 1, keeps level 30 instead of aging to 29. -/
theorem C7_guard_precedes_counterexample :
    witState.level (0, 0) = 0 ∧
    (1 : Int) < witState.level (1, 1) ∧
    (wavesAlgorithm ⟨30, 1, true⟩ (1, 1) (0, 0) witState).level (1, 1) = 30 ∧
    (30 : Int) ≠ witState.level (1, 1) - 1 := by
  refine ⟨by decide, by decide, by decide, by decide⟩

/-- Claim C7 as amended: in the Waves variant, when the neighbor's level
is nonzero and self's level strictly exceeds edibleLevel, the call only
decrements self's level by one: species buffers and every other level are
untouched and no predation occurs. -/
theorem C7_waves_too_young (cfg : Config) (p np : Pos) (s : SimState)
    (hnl : s.level np ≠ 0) (hml : cfg.edibleLevel < s.level p) :
    wavesAlgorithm cfg p np s =
      { s with level := writeAt s.level p (s.level p - 1) } := by
  simp [wavesAlgorithm, hnl, hml]

/-- Witness for the amended C7: the red cell (1,1) at level 30 with the
green neighbor (2,1) at level 40 merely ages to 29. -/
theorem C7_waves_too_young_witness :
    witState.level (2, 1) ≠ 0 ∧ (1 : Int) < witState.level (1, 1) ∧
    wavesAlgorithm ⟨30, 1, true⟩ (1, 1) (2, 1) witState =
      { witState with level := writeAt witState.level (1, 1) (witState.level (1, 1) - 1) } :=
  ⟨by decide, by decide,
    C7_waves_too_young ⟨30, 1, true⟩ (1, 1) (2, 1) witState (by decide) (by decide)⟩

/-- For cursors in range, masking with 7 is reduction mod 8. -/
theorem and_seven_eq_mod : ∀ i : Nat, i < 8 → (i + 1) &&& 7 = (i + 1) % 8 := by decide

/-- The fixed cursor after n fresh calls is n mod 8, the random cursor is
untouched. -/
theorem fixedSelAfter_eq (n : Nat) : fixedSelAfter n = ⟨n % 8, 0⟩ := by
  induction n with
  | zero => rfl
  | succ n ih =>
      have h8 : n % 8 < 8 := Nat.mod_lt _ (by omega)
      simp only [fixedSelAfter, ih, fixedNext, fixedNeighborMask, fixedNeighborPicks]
      simp only [List.length_cons, List.length_nil]
      have := and_seven_eq_mod (n % 8) h8
      simp only [show (8 : Nat) - 1 = 7 from rfl] at *
      rw [this]
      have : (n % 8 + 1) % 8 = (n + 1) % 8 := by omega
      rw [this]

/-- Refinement of the fixed-mode pass: starting from cursor i < 8, the
cells consume ring entries (i + k) mod 8 in order, and the pass ends with
the fixed cursor advanced by exactly the number of processed cells, the
random cursor untouched. -/
theorem runPassFixedAux_eq (alg : AlgFun) (cfg : Config) (cells : List Pos)
    (s : SimState) (sel : SelectorState) (h : sel.fixedNeighborPicksIndex < 8) :
    runPassFixedAux alg cfg cells (s, sel) =
      (runPassAux alg cfg cells
        (fun k => fixedNeighborPicks.getD ((sel.fixedNeighborPicksIndex + k) % 8) (0, 0)) s,
       ⟨(sel.fixedNeighborPicksIndex + cells.length) % 8,
        sel.randomNeighborPicksIndex⟩) := by
  induction cells generalizing s sel with
  | nil =>
      obtain ⟨i, r⟩ := sel
      simp only at h
      have hi : (i + ([] : List Pos).length) % 8 = i := by
        simp only [List.length_nil, Nat.add_zero]
        omega
      simp only [runPassFixedAux, runPassAux, hi]
  | cons p ps ih =>
      obtain ⟨i, r⟩ := sel
      simp only at h
      have hmask : (i + 1) &&& fixedNeighborMask = (i + 1) % 8 := by
        simpa [fixedNeighborMask, fixedNeighborPicks] using and_seven_eq_mod i h
      have hstep : fixedNext ⟨i, r⟩ =
          (fixedNeighborPicks.getD i (0, 0), ⟨(i + 1) % 8, r⟩) := by
        simp [fixedNext, hmask]
      have hlt : (i + 1) % 8 < 8 := Nat.mod_lt _ (by omega)
      simp only [runPassFixedAux, hstep]
      rw [ih _ ⟨(i + 1) % 8, r⟩ hlt]
      have hpickfun :
          (fun k => fixedNeighborPicks.getD (((i + 1) % 8 + k) % 8) (0, 0)) =
            (fun k => fixedNeighborPicks.getD ((i + (k + 1)) % 8) (0, 0)) := by
        funext k
        congr 1
        omega
      have hi0 : (i + 0) % 8 = i := by omega
      simp only [runPassAux, hpickfun, hi0, List.length_cons]
      have hidx : ((i + 1) % 8 + ps.length) % 8 = (i + (ps.length + 1)) % 8 := by omega
      rw [hidx]

/-- Claim C9: a fresh FixedCycle selector returns exactly the clockwise
ring (1,1),(1,0),(1,-1),(0,-1),(-1,-1),(-1,0),(-1,1),(0,1) repeated
cyclically; the cursor advances by one per call (a fixed-mode pass over a
cell list advances it by exactly the number of cells, never resetting per
row, cell or generation); and the FixedCycle and PrecomputedRandomCycle
cursors are independent of each other. -/
theorem C9_fixed_cycle (n : Nat) (alg : AlgFun) (cfg : Config) (cells : List Pos)
    (s : SimState) (sel : SelectorState) (picks : List Pos)
    (h : sel.fixedNeighborPicksIndex < 8) :
    fixedStream n = fixedNeighborPicks.getD (n % 8) (0, 0) ∧
    (runPassFixedAux alg cfg cells (s, sel)).2 =
      ⟨(sel.fixedNeighborPicksIndex + cells.length) % 8,
       sel.randomNeighborPicksIndex⟩ ∧
    (fixedNext sel).2.randomNeighborPicksIndex = sel.randomNeighborPicksIndex ∧
    (preRandomNext picks sel).2.fixedNeighborPicksIndex = sel.fixedNeighborPicksIndex := by
  refine ⟨?_, ?_, rfl, rfl⟩
  · rw [fixedStream, fixedSelAfter_eq]
    rfl
  · rw [runPassFixedAux_eq alg cfg cells s sel h]

/-- Witness for C9: from a fresh selector the 10th call wraps around to
ring entry 1, a two-cell fixed-mode pass advances the cursor from 0 to 2,
and neither selector's step moves the other's cursor. -/
theorem C9_fixed_cycle_witness :
    freshSelector.fixedNeighborPicksIndex < 8 ∧
    (fixedStream 9 = fixedNeighborPicks.getD (9 % 8) (0, 0) ∧
      (runPassFixedAux randomAlgorithm ⟨30, 1, true⟩ [(1, 1), (2, 1)]
        (stateAllZero, freshSelector)).2 =
        ⟨(freshSelector.fixedNeighborPicksIndex + [(1, 1), (2, 1)].length) % 8,
         freshSelector.randomNeighborPicksIndex⟩ ∧
      (fixedNext freshSelector).2.randomNeighborPicksIndex =
        freshSelector.randomNeighborPicksIndex ∧
      (preRandomNext [(0, 1)] freshSelector).2.fixedNeighborPicksIndex =
        freshSelector.fixedNeighborPicksIndex) :=
  ⟨by decide,
    C9_fixed_cycle 9 randomAlgorithm ⟨30, 1, true⟩ [(1, 1), (2, 1)] stateAllZero
      freshSelector [(0, 1)] (by decide)⟩

/-- Counterexample to claim C8: an unknown rule variant is NOT rejected —
the string "bogus" is silently substituted by the Classic algorithm — and
an unknown picking mode is not caught at configuration time but throws
during the pass (pickOffset is where update() raises the error). -/
theorem C8_no_fail_fast_counterexample :
    ("bogus" : String) ≠ "waves" ∧ ("bogus" : String) ≠ "random" ∧
    selectAlgorithm "bogus" = randomAlgorithm ∧
    pickOffset 3 (0, 0) [] freshSelector =
      .error "Unknown neighbor picking mode!" := by
  refine ⟨by decide, by decide, ?_, rfl⟩
  rw [selectAlgorithm, if_neg (by decide)]

/-- Claim C8 as amended: there is no configuration-time validation.  Every
string other than "waves" (unknown variants included) selects the Classic
algorithm at tick time; the mode listener silently keeps the previous mode
for unknown strings; a mode value outside 0..2 reaching a pass raises
"Unknown neighbor picking mode!" during the tick, while modes 0..2
dispatch to their selectors. -/
theorem C8_dispatch_amended :
    (∀ a : String, a ≠ "waves" → selectAlgorithm a = randomAlgorithm) ∧
    (∀ (cur : Nat) (v : String), v ≠ "random" → v ≠ "fixed" → v ≠ "pre-random" →
      setPickingMode cur v = cur) ∧
    (∀ (m : Nat) (d : Pos) (picks : List Pos) (sel : SelectorState),
      m ≠ 0 → m ≠ 1 → m ≠ 2 →
      pickOffset m d picks sel = .error "Unknown neighbor picking mode!") ∧
    (∀ (d : Pos) (picks : List Pos) (sel : SelectorState),
      pickOffset 0 d picks sel = .ok (d, sel) ∧
      pickOffset 1 d picks sel = .ok (fixedNext sel) ∧
      pickOffset 2 d picks sel = .ok (preRandomNext picks sel)) := by
  refine ⟨?_, ?_, ?_, ?_⟩
  · intro a ha
    rw [selectAlgorithm, if_neg ha]
  · intro cur v h1 h2 h3
    rw [setPickingMode, if_neg h1, if_neg h2, if_neg h3]
  · intro m d picks sel h0 h1 h2
    simp only [pickOffset, NEIGHBOR_PICKING_MODE_RANDOM, NEIGHBOR_PICKING_MODE_FIXED,
      NEIGHBOR_PICKING_MODE_PRE_RANDOM]
    rw [if_neg h0, if_neg h1, if_neg h2]
  · intro d picks sel
    exact ⟨rfl, rfl, rfl⟩

/-- Witness for the amended C8 at concrete inputs. -/
theorem C8_dispatch_amended_witness :
    ("mystery" : String) ≠ "waves" ∧
    selectAlgorithm "mystery" = randomAlgorithm ∧
    setPickingMode 1 "mystery" = 1 ∧
    pickOffset 7 (1, 0) [(0, 1)] freshSelector =
      .error "Unknown neighbor picking mode!" :=
  ⟨by decide,
    C8_dispatch_amended.1 "mystery" (by decide),
    C8_dispatch_amended.2.1 1 "mystery" (by decide) (by decide) (by decide),
    C8_dispatch_amended.2.2.1 7 (1, 0) [(0, 1)] freshSelector
      (by decide) (by decide) (by decide)⟩

/-- Every interior cell lies strictly inside the rectangle. -/
theorem mem_interiorCells {width height : Nat} {p : Pos}
    (hp : p ∈ interiorCells width height) :
    1 ≤ p.1 ∧ p.1 ≤ (width : Int) - 2 ∧ 1 ≤ p.2 ∧ p.2 ≤ (height : Int) - 2 := by
  rw [interiorCells, List.mem_flatMap] at hp
  obtain ⟨j, hj, hp⟩ := hp
  rw [List.mem_map] at hp
  obtain ⟨i, hi, rfl⟩ := hp
  rw [List.mem_range] at hj hi
  refine ⟨?_, ?_, ?_, ?_⟩ <;> dsimp only <;> omega

/-- A border cell is never processed as the self cell of a pass. -/
theorem border_notin_interior {width height : Nat} {q : Pos}
    (hq : isBorder width height q) :
    ∀ p ∈ interiorCells width height, q ≠ p := by
  intro p hp he
  obtain ⟨ha, hb, hc, hd⟩ := mem_interiorCells hp
  subst he
  rcases hq with h0 | h0 | h0 | h0 <;> omega

/-- Neither variant ever writes the original color buffer. -/
theorem alg_orig_const (alg : AlgFun)
    (halg : alg = randomAlgorithm ∨ alg = wavesAlgorithm)
    (cfg : Config) (p np : Pos) (s : SimState) :
    (alg cfg p np s).orig = s.orig := by
  rcases halg with rfl | rfl
  · simp only [randomAlgorithm]
    repeat' split
    all_goals rfl
  · simp only [wavesAlgorithm]
    repeat' split
    all_goals rfl

/-- Both variants leave a cell other than the self cell entirely alone
when its level is 0 (the level write at the neighbor is guarded by the
neighbor's level being nonzero). -/
theorem alg_frame_of_zero (alg : AlgFun)
    (halg : alg = randomAlgorithm ∨ alg = wavesAlgorithm)
    (cfg : Config) (p np : Pos) (s : SimState) (q : Pos)
    (hqp : q ≠ p) (hq : s.level q = 0) :
    (alg cfg p np s).level q = 0 ∧ (alg cfg p np s).work q = s.work q ∧
    (alg cfg p np s).orig q = s.orig q := by
  have horig := alg_orig_const alg halg cfg p np s
  rcases halg with rfl | rfl
  · by_cases hnl : s.level np = 0
    · simp [randomAlgorithm, hnl, hq]
    · have hqnp : q ≠ np := fun h => hnl (h ▸ hq)
      simp only [randomAlgorithm, if_neg hnl]
      repeat' split
      all_goals simp [writeAt, hqp, hqnp, hq]
  · by_cases hnl : s.level np = 0
    · simp [wavesAlgorithm, hnl, hq]
    · have hqnp : q ≠ np := fun h => hnl (h ▸ hq)
      simp only [wavesAlgorithm, if_neg hnl]
      repeat' split
      all_goals simp [writeAt, hqp, hqnp, hq]

/-- Pass-level frame: a cell never processed as self and starting at level
0 is untouched by the whole pass. -/
theorem runPassAux_frame_of_zero (alg : AlgFun)
    (halg : alg = randomAlgorithm ∨ alg = wavesAlgorithm) (cfg : Config) :
    ∀ (cells : List Pos) (picks : Nat → Pos) (s : SimState) (q : Pos),
      (∀ p ∈ cells, q ≠ p) → s.level q = 0 →
      (runPassAux alg cfg cells picks s).level q = 0 ∧
      (runPassAux alg cfg cells picks s).work q = s.work q ∧
      (runPassAux alg cfg cells picks s).orig q = s.orig q
  | [], picks, s, q, _, hq => ⟨hq, rfl, rfl⟩
  | p :: ps, picks, s, q, hnotin, hq => by
      have hstep := alg_frame_of_zero alg halg cfg p
        (p.1 + (picks 0).1, p.2 + (picks 0).2) s q
        (hnotin p (by simp)) hq
      have hrest := runPassAux_frame_of_zero alg halg cfg ps (fun i => picks (i + 1))
        (alg cfg p (p.1 + (picks 0).1, p.2 + (picks 0).2) s) q
        (fun r hr => hnotin r (by simp [hr])) hstep.1
      refine ⟨hrest.1, ?_, ?_⟩
      · rw [runPassAux]
        exact hrest.2.1.trans hstep.2.1
      · rw [runPassAux]
        exact hrest.2.2.trans hstep.2.2

/-- Tick-level frame for a blank zero-level border cell. -/
theorem tick_border_frame (alg : AlgFun)
    (halg : alg = randomAlgorithm ∨ alg = wavesAlgorithm)
    (cfg : Config) (picks : Nat → Pos) (width height : Nat) (s : SimState)
    (q : Pos) (hq : isBorder width height q) (h0 : s.level q = 0)
    (_ho : s.orig q = ⟨0, 0, 0⟩) (hw : s.work q = ⟨0, 0, 0⟩) :
    (tick alg cfg picks width height s).level q = 0 ∧
    (tick alg cfg picks width height s).orig q = ⟨0, 0, 0⟩ ∧
    (tick alg cfg picks width height s).work q = ⟨0, 0, 0⟩ := by
  have h := runPassAux_frame_of_zero alg halg cfg (interiorCells width height)
    picks s q (border_notin_interior hq) h0
  exact ⟨h.1, h.2.1.trans hw, h.2.1.trans hw⟩

/-- Claim C10: a border cell that is Empty at level 0 is untouched by any
number of ticks, in either variant: the pass only processes interior cells
as self, colors are written only at the self cell, and a neighbor's level
is written only when that neighbor's level was nonzero. -/
theorem C10_border_cells_invariant (alg : AlgFun)
    (halg : alg = randomAlgorithm ∨ alg = wavesAlgorithm)
    (cfg : Config) (pickss : List (Nat → Pos)) (width height : Nat)
    (s : SimState) (q : Pos)
    (hq : isBorder width height q) (h0 : s.level q = 0)
    (ho : s.orig q = ⟨0, 0, 0⟩) (hw : s.work q = ⟨0, 0, 0⟩) :
    (runTicks alg cfg pickss width height s).level q = 0 ∧
    (runTicks alg cfg pickss width height s).orig q = ⟨0, 0, 0⟩ ∧
    (runTicks alg cfg pickss width height s).work q = ⟨0, 0, 0⟩ := by
  induction pickss generalizing s with
  | nil => exact ⟨h0, ho, hw⟩
  | cons picks rest ih =>
      have ht := tick_border_frame alg halg cfg picks width height s q hq h0 ho hw
      simpa only [runTicks, List.foldl_cons] using
        ih (tick alg cfg picks width height s) ht.1 ht.2.1 ht.2.2

/-- Witness for C10: on the 5-by-4 counterexample grid the blank border
cell (0,0) survives a full tick (with FixedCycle offsets) unchanged. -/
theorem C10_border_cells_invariant_witness :
    cexState.level (0, 0) = 0 ∧ cexState.orig (0, 0) = ⟨0, 0, 0⟩ ∧
    cexState.work (0, 0) = ⟨0, 0, 0⟩ ∧
    ((runTicks randomAlgorithm cexCfg [cexPicks] 5 4 cexState).level (0, 0) = 0 ∧
     (runTicks randomAlgorithm cexCfg [cexPicks] 5 4 cexState).orig (0, 0) = ⟨0, 0, 0⟩ ∧
     (runTicks randomAlgorithm cexCfg [cexPicks] 5 4 cexState).work (0, 0) = ⟨0, 0, 0⟩) :=
  ⟨rfl, rfl, rfl,
    C10_border_cells_invariant randomAlgorithm (Or.inl rfl) cexCfg [cexPicks] 5 4
      cexState (0, 0) (Or.inl rfl) rfl rfl rfl⟩

/-- A pass whose per-call color reads are frozen to an explicit snapshot
equal to the pass's original buffer computes the same result as the real
pass: color reads never observe anything but the pre-pass snapshot. -/
theorem runPassAux_color_snapshot (alg : AlgFun) (algCS : (Pos → RGB) → AlgFun)
    (hcall : ∀ c0 cfg p np s, s.orig = c0 → algCS c0 cfg p np s = alg cfg p np s)
    (horig : ∀ cfg p np s, (alg cfg p np s).orig = s.orig)
    (cfg : Config) :
    ∀ (cells : List Pos) (picks : Nat → Pos) (s : SimState) (c0 : Pos → RGB),
      s.orig = c0 →
      runPassAux (algCS c0) cfg cells picks s = runPassAux alg cfg cells picks s
  | [], _, _, _, _ => rfl
  | p :: ps, picks, s, c0, h => by
      simp only [runPassAux]
      rw [hcall c0 cfg _ _ s h]
      exact runPassAux_color_snapshot alg algCS hcall horig cfg ps _ _ c0
        ((horig _ _ _ _).trans h)

/-- Per-call agreement of the Classic rule with its color-frozen version. -/
theorem randomAlgorithmCS_eq (c0 : Pos → RGB) (cfg : Config) (p np : Pos)
    (s : SimState) (h : s.orig = c0) :
    randomAlgorithmCS c0 cfg p np s = randomAlgorithm cfg p np s := by
  simp only [randomAlgorithmCS, randomAlgorithm, h]

/-- Per-call agreement of the Waves rule with its color-frozen version. -/
theorem wavesAlgorithmCS_eq (c0 : Pos → RGB) (cfg : Config) (p np : Pos)
    (s : SimState) (h : s.orig = c0) :
    wavesAlgorithmCS c0 cfg p np s = wavesAlgorithm cfg p np s := by
  simp only [wavesAlgorithmCS, wavesAlgorithm, h]

/-- Counterexample to claim C1: a pass is NOT equivalent to reading only
the pre-pass snapshot.  On the 5-by-4 grid with one red level-30 cell at
(2,2) and FixedCycle offsets, the Empty cell (1,1) is colonized first and
its level write is then observed by the update of (1,2) in the same pass:
the real pass leaves (1,2) at level 30, while the level-snapshot semantics
leaves it at 0. -/
theorem C1_snapshot_counterexample :
    cexState.level (1, 2) = 0 ∧
    (runPass randomAlgorithm cexCfg cexPicks 5 4 cexState).level (1, 2) = 30 ∧
    (runPassSnap randomAlgorithmLS cexCfg cexPicks 5 4 cexState).level (1, 2) = 0 ∧
    (runPass randomAlgorithm cexCfg cexPicks 5 4 cexState).level (1, 2) ≠
      (runPassSnap randomAlgorithmLS cexCfg cexPicks 5 4 cexState).level (1, 2) := by
  refine ⟨by decide, by decide, by decide, by decide⟩

/-- Claim C1 as amended: species/color reads do observe only the pre-pass
snapshot — the original buffer is never written during a pass and the pass
equals its color-frozen version, for both variants — but level reads go
through the single shared level array, so an update can observe a level
written by an earlier update of the same pass (concrete divergence from
the level-snapshot semantics at cell (1,2)). -/
theorem C1_amended_color_snapshot_only :
    (∀ (cfg : Config) (p np : Pos) (s : SimState),
      (randomAlgorithm cfg p np s).orig = s.orig) ∧
    (∀ (cfg : Config) (p np : Pos) (s : SimState),
      (wavesAlgorithm cfg p np s).orig = s.orig) ∧
    (∀ (cfg : Config) (cells : List Pos) (picks : Nat → Pos) (s : SimState),
      runPassAux (randomAlgorithmCS s.orig) cfg cells picks s =
        runPassAux randomAlgorithm cfg cells picks s) ∧
    (∀ (cfg : Config) (cells : List Pos) (picks : Nat → Pos) (s : SimState),
      runPassAux (wavesAlgorithmCS s.orig) cfg cells picks s =
        runPassAux wavesAlgorithm cfg cells picks s) ∧
    (runPass randomAlgorithm cexCfg cexPicks 5 4 cexState).level (1, 2) = 30 ∧
    (runPassSnap randomAlgorithmLS cexCfg cexPicks 5 4 cexState).level (1, 2) = 0 := by
  refine ⟨?_, ?_, ?_, ?_, by decide, by decide⟩
  · intro cfg p np s
    exact alg_orig_const randomAlgorithm (Or.inl rfl) cfg p np s
  · intro cfg p np s
    exact alg_orig_const wavesAlgorithm (Or.inr rfl) cfg p np s
  · intro cfg cells picks s
    exact runPassAux_color_snapshot randomAlgorithm randomAlgorithmCS
      (fun c0 cfg' p np s' h => randomAlgorithmCS_eq c0 cfg' p np s' h)
      (fun cfg' p np s' => alg_orig_const randomAlgorithm (Or.inl rfl) cfg' p np s')
      cfg cells picks s s.orig rfl
  · intro cfg cells picks s
    exact runPassAux_color_snapshot wavesAlgorithm wavesAlgorithmCS
      (fun c0 cfg' p np s' h => wavesAlgorithmCS_eq c0 cfg' p np s' h)
      (fun cfg' p np s' => alg_orig_const wavesAlgorithm (Or.inr rfl) cfg' p np s')
      cfg cells picks s s.orig rfl

/-- Counterexample to claim C2: the Empty-iff-level-0 invariant does not
survive a tick.  The counterexample grid satisfies it before the tick, yet
after one Classic tick the cell (1,2) is Empty (blank color, by a stale
snapshot read of the just-colonized (1,1)) while its level is 30. -/
theorem C2_invariant_counterexample :
    cexState.orig (1, 2) = ⟨0, 0, 0⟩ ∧ cexState.level (1, 2) = 0 ∧
    (tick randomAlgorithm cexCfg cexPicks 5 4 cexState).orig (1, 2) = ⟨0, 0, 0⟩ ∧
    (tick randomAlgorithm cexCfg cexPicks 5 4 cexState).level (1, 2) = 30 ∧
    ¬(((tick randomAlgorithm cexCfg cexPicks 5 4 cexState).orig (1, 2) = ⟨0, 0, 0⟩) ↔
      ((tick randomAlgorithm cexCfg cexPicks 5 4 cexState).level (1, 2) = 0)) := by
  refine ⟨by decide, by decide, by decide, by decide, by decide⟩

/-- Per-call preservation, Classic: with a positive initialLevel, if all
levels are nonnegative and every level-0 cell is blank in the write
buffer, the same holds after one engine call (every level the call writes
is at least 1). -/
theorem randomAlgorithm_preserves_zeroInv (cfg : Config) (p np : Pos) (s : SimState)
    (hinit : 1 ≤ cfg.initialLevel)
    (h1 : ∀ q, 0 ≤ s.level q)
    (h2 : ∀ q, s.level q = 0 → s.work q = ⟨0, 0, 0⟩) :
    (∀ q, 0 ≤ (randomAlgorithm cfg p np s).level q) ∧
    (∀ q, (randomAlgorithm cfg p np s).level q = 0 →
      (randomAlgorithm cfg p np s).work q = ⟨0, 0, 0⟩) := by
  by_cases hnl : s.level np = 0
  · simp only [randomAlgorithm, if_pos hnl]
    exact ⟨h1, h2⟩
  · have hnp1 : 1 ≤ s.level np := by have := h1 np; omega
    simp only [randomAlgorithm, if_neg hnl]
    split
    · refine ⟨fun q => ?_, fun q hq => ?_⟩
      · simp only [writeAt]
        split
        · exact h1 np
        · exact h1 q
      · simp only [writeAt] at hq ⊢
        by_cases hqp : q = p
        · rw [if_pos hqp] at hq
          omega
        · rw [if_neg hqp] at hq ⊢
          exact h2 q hq
    · split
      · refine ⟨fun q => ?_, fun q hq => ?_⟩
        · simp only [writeAt]
          split
          · omega
          · split
            · omega
            · exact h1 q
        · simp only [writeAt] at hq ⊢
          by_cases hqp : q = p
          · rw [if_pos hqp] at hq
            omega
          · rw [if_neg hqp] at hq ⊢
            by_cases hqnp : q = np
            · rw [if_pos hqnp] at hq
              omega
            · rw [if_neg hqnp] at hq
              exact h2 q hq
      · split
        · refine ⟨fun q => ?_, fun q hq => ?_⟩
          · simp only [writeAt]
            split
            · omega
            · split
              · omega
              · exact h1 q
          · simp only [writeAt] at hq ⊢
            by_cases hqp : q = p
            · rw [if_pos hqp] at hq
              omega
            · rw [if_neg hqp] at hq ⊢
              by_cases hqnp : q = np
              · rw [if_pos hqnp] at hq
                omega
              · rw [if_neg hqnp] at hq
                exact h2 q hq
        · split
          · refine ⟨fun q => ?_, fun q hq => ?_⟩
            · simp only [writeAt]
              split
              · omega
              · split
                · omega
                · exact h1 q
            · simp only [writeAt] at hq ⊢
              by_cases hqp : q = p
              · rw [if_pos hqp] at hq
                omega
              · rw [if_neg hqp] at hq ⊢
                by_cases hqnp : q = np
                · rw [if_pos hqnp] at hq
                  omega
                · rw [if_neg hqnp] at hq
                  exact h2 q hq
          · exact ⟨h1, h2⟩

/-- Pass-level preservation of the Classic zero-level invariant. -/
theorem runPassAux_preserves_zeroInv (cfg : Config) (hinit : 1 ≤ cfg.initialLevel) :
    ∀ (cells : List Pos) (picks : Nat → Pos) (s : SimState),
      (∀ q, 0 ≤ s.level q) →
      (∀ q, s.level q = 0 → s.work q = ⟨0, 0, 0⟩) →
      (∀ q, 0 ≤ (runPassAux randomAlgorithm cfg cells picks s).level q) ∧
      (∀ q, (runPassAux randomAlgorithm cfg cells picks s).level q = 0 →
        (runPassAux randomAlgorithm cfg cells picks s).work q = ⟨0, 0, 0⟩)
  | [], _, _, h1, h2 => ⟨h1, h2⟩
  | p :: ps, picks, s, h1, h2 => by
      have hc := randomAlgorithm_preserves_zeroInv cfg p
        (p.1 + (picks 0).1, p.2 + (picks 0).2) s hinit h1 h2
      simpa only [runPassAux] using
        runPassAux_preserves_zeroInv cfg hinit ps (fun i => picks (i + 1)) _ hc.1 hc.2

/-- Claim C2 as amended: the full Empty-iff-level-0 invariant does not
hold after a tick (see the counterexample); what survives is one direction
in the Classic variant: with initialLevel at least 1, if before the tick
all levels are nonnegative and every level-0 cell is blank, then after the
tick every level-0 cell is still Empty (blank in both color buffers).  The
converse direction and the Waves variant admit violations. -/
theorem C2_amended_classic_zero_level (cfg : Config) (picks : Nat → Pos)
    (width height : Nat) (s : SimState)
    (hinit : 1 ≤ cfg.initialLevel)
    (h1 : ∀ q, 0 ≤ s.level q)
    (h2 : ∀ q, s.level q = 0 → s.work q = ⟨0, 0, 0⟩) :
    ∀ q, (tick randomAlgorithm cfg picks width height s).level q = 0 →
      (tick randomAlgorithm cfg picks width height s).orig q = ⟨0, 0, 0⟩ ∧
      (tick randomAlgorithm cfg picks width height s).work q = ⟨0, 0, 0⟩ := by
  intro q hq
  have h := runPassAux_preserves_zeroInv cfg hinit (interiorCells width height)
    picks s h1 h2
  simp only [tick, runPass] at hq ⊢
  exact ⟨h.2 q hq, h.2 q hq⟩

/-- Witness for the amended C2: on an all-blank grid the tick keeps every
level at 0 and every level-0 cell blank, e.g. the center of a 3-by-3
grid. -/
theorem C2_amended_classic_zero_level_witness :
    (1 : Int) ≤ 30 ∧
    (tick randomAlgorithm cexCfg cexPicks 3 3 stateAllZero).level (1, 1) = 0 ∧
    ((tick randomAlgorithm cexCfg cexPicks 3 3 stateAllZero).orig (1, 1) = ⟨0, 0, 0⟩ ∧
     (tick randomAlgorithm cexCfg cexPicks 3 3 stateAllZero).work (1, 1) = ⟨0, 0, 0⟩) :=
  ⟨by decide, by decide,
    C2_amended_classic_zero_level cexCfg cexPicks 3 3 stateAllZero (by decide)
      (fun _ => le_refl 0) (fun _ _ => rfl) (1, 1) (by decide)⟩

end RPA
